import Mathlib

set_option linter.unusedVariables false

/-!
Shallow embedding of the NYT Research Assistant Streamlit app
(`search.py`, together with the variant `unnamed/part_000` where the two
files differ, and `research.py` for the shared response-extraction logic).

The Streamlit session state (`st.session_state`) is modelled as an explicit
record.  The per-interaction re-execution of the whole script is modelled as
discrete events (a chat submission, the Clear Conversation button, a
processing pass), each event being one script run that mutates the durable
session state; `st.rerun()` / `st.stop()` end a run, so the state visible at
event boundaries is exactly the session state.  The external agent
(`research_agent.run`) is an oracle outcome supplied to the processing pass.
-/

/-- Conversation roles, the `"user"` / `"assistant"` strings of the source. -/
inductive Role
  | user
  | assistant
deriving DecidableEq, Repr

/-- One element of `st.session_state.conversation`: a dict
`{"role": ..., "message": ...}`. -/
structure Entry where
  role : Role
  message : String
deriving DecidableEq, Repr

/-- The fields of `st.session_state` the app uses (search.py lines 23-29). -/
structure SessionState where
  apikey : String
  link_count : Nat
  conversation : List Entry
  loading : Bool
  processing : Bool
deriving DecidableEq, Repr

/-- `session_defaults` (search.py lines 23-29): the initial session state. -/
def session_defaults : SessionState :=
  { apikey := ""
  , link_count := 10
  , conversation := []
  , loading := false
  , processing := false }

/-- The dynamic `response` value returned by `research_agent.run`, split by the
shape probes the extraction code performs (search.py lines 204-209,
research.py lines 48-53): a dict whose `"content"` key may be present or
absent, an object exposing a `content` attribute, or any other value
(rendered through `str`). -/
inductive Response
  | dict (content : Option String)
  | obj (content : String)
  | other (s : String)
deriving DecidableEq, Repr

/-- The response-extraction logic (search.py lines 204-209; the same three
branches appear at research.py lines 48-53):

* `isinstance(response, dict)`: `response.get("content", "No content available.")`,
  which yields the stored value whenever the key is present (even when that
  value is the empty string) and the default only when the key is absent;
* `hasattr(response, "content")`: `response.content`;
* otherwise `str(response)`. -/
def normalizeResponse : Response → String
  | .dict (some c) => c
  | .dict none => "No content available."
  | .obj c => c
  | .other s => s

/-- The value-level content of a `phi.agent.Agent` as constructed by the two
factories; `google_api_key` records the `os.environ["GOOGLE_API_KEY"]`
assignment performed at build time, `tools` the tool class names. -/
structure Agent where
  google_api_key : String
  model_id : String
  tools : List String
  description : String
  instructions : List String
  markdown : Bool
  show_tool_calls : Bool
  add_datetime_to_instructions : Bool
  add_history_to_messages : Bool
  num_history_responses : Nat
  duckduckgo_news : Bool
deriving DecidableEq, Repr

/-- `create_research_agent` of search.py (lines 143-163).  Note two facts read
off the source verbatim: the first two instruction literals are adjacent with
no separating comma, so Python concatenates them into a single list element;
and `link_count` is never interpolated — the search instruction hard-codes
"top 20 links", so the parameter is unused in the body. -/
def create_research_agent (api_key : String) (link_count : Nat) : Agent :=
  { google_api_key := api_key
  , model_id := "gemini-2.0-flash-exp"
  , tools := ["DuckDuckGo", "Newspaper4k"]
  , description := "You are a senior NYT researcher writing an article on a topic."
  , instructions :=
      [ "first you will make a plan  of what to answer and generate a series of question for the given topic" ++
        "For a given topic, search for the top 20 links."
      , "Then read each URL and extract the article text. If a URL isn\x27t available, ignore it."
      , "Analyze and prepare an NYT-worthy article based on the information."
      , "make sure everytime used ask question you have to do propersearch and don\x27t give response by your own," ]
  , markdown := true
  , show_tool_calls := true
  , add_datetime_to_instructions := true
  , add_history_to_messages := true
  , num_history_responses := 3
  , duckduckgo_news := true }

/-- `create_research_agent` of unnamed/part_000 (lines 58-76), the variant in
which the search instruction is an f-string interpolating `link_count`. -/
def create_research_agent_v0 (api_key : String) (link_count : Nat) : Agent :=
  { google_api_key := api_key
  , model_id := "gemini-2.0-flash-exp"
  , tools := ["DuckDuckGo", "Newspaper4k"]
  , description := "You are a senior NYT researcher writing an article on a topic."
  , instructions :=
      [ "For a given topic, search for the top " ++ toString link_count ++ " links."
      , "Then read each URL and extract the article text. If a URL isn\x27t available, ignore it."
      , "Analyze and prepare an NYT-worthy article based on the information." ]
  , markdown := true
  , show_tool_calls := true
  , add_datetime_to_instructions := true
  , add_history_to_messages := true
  , num_history_responses := 3
  , duckduckgo_news := false }

/-- The `@st.cache_resource` memo table for `create_research_agent`: resources
are keyed by the exact argument tuple `(api_key, link_count)`. -/
def AgentCache := List ((String × Nat) × Agent)

/-- Key lookup in the memo table (exact equality on the argument tuple). -/
def lookupAgent : AgentCache → (String × Nat) → Option Agent
  | [], _ => none
  | (k, a) :: rest, key => if k = key then some a else lookupAgent rest key

/-- Result of one cached call: the handle returned to the caller, the memo
table afterwards, and whether the factory body actually ran. -/
structure CacheResult where
  agent : Agent
  cache : AgentCache
  built : Bool

/-- One call of the cached `create_research_agent` (search.py line 165 under
the decorator of line 143): on a key hit the stored handle is returned and
the factory body does not run; on a miss the factory runs and the result is
stored under the key. -/
def getOrCreate (c : AgentCache) (key : String × Nat) : CacheResult :=
  match lookupAgent c key with
  | some a => ⟨a, c, false⟩
  | none => ⟨create_research_agent key.1 key.2,
             (key, create_research_agent key.1 key.2) :: c, true⟩

/-- The call sequence of claim C3: configuration `k1`, then `k2`, then `k1`
again, starting from an empty memo table. -/
def threeCalls (k1 k2 : String × Nat) : CacheResult × CacheResult × CacheResult :=
  let r1 := getOrCreate [] k1
  let r2 := getOrCreate r1.cache k2
  let r3 := getOrCreate r2.cache k1
  (r1, r2, r3)

/-- Number of factory invocations a call performed (0 or 1). -/
def buildsOf (r : CacheResult) : Nat := if r.built then 1 else 0

/-- Outcome of the external call `research_agent.run(latest_query)`: either a
returned `Response` value or a raised exception carrying the text `str(e)`. -/
inductive RunOutcome
  | ok (r : Response)
  | err (e : String)
deriving DecidableEq, Repr

/-- The chat-input block (search.py lines 183-190).  `st.chat_input` is
rendered with `disabled=st.session_state.loading`, so no input arrives while
`loading` is set; the walrus `if user_input := ...` skips the block when the
returned string is empty (falsy); a whitespace-only input reaches the inner
guard `if not user_input.strip()` and is rejected by `st.stop()` before any
mutation; otherwise one User entry is appended and `loading` is set.
`isBlank` models `not user_input.strip()`: true exactly when every character
of the input is whitespace (hence also on the empty string). -/
def isBlank (input : String) : Bool := input.toList.all Char.isWhitespace

/-- The chat-input block itself; see the note on `isBlank` above. -/
def chatInputHandler (s : SessionState) (input : String) : SessionState :=
  if s.loading then s
  else if input = "" then s
  else if isBlank input then s
  else { s with conversation := s.conversation ++ [⟨Role.user, input⟩]
              , loading := true }

/-- The Clear Conversation button handler (search.py lines 61-63): it assigns
`st.session_state.conversation = []` and reruns; no other session-state field
is written. -/
def clearConversation (s : SessionState) : SessionState :=
  { s with conversation := [] }

/-- `str(e)` of the Python `IndexError` raised by `conversation[-1]` on an
empty list. -/
def indexErrorText : String := "list index out of range"

/-- The user-facing error marker prefix of the except handler
(search.py line 219). -/
def errorMarker : String := "❌ Error processing request: "

/-- The processing block (search.py lines 195-224), one execution of it
within a script run.  Returns the session state afterwards and the number of
`research_agent.run` invocations the execution performed.

Faithful to the source: the guard is `loading and not processing`; inside the
guard `processing` is set, `conversation[-1]` is read (raising `IndexError`
on an empty conversation before the agent is ever invoked), the agent runs,
the response is extracted with `normalizeResponse` and appended as an
assistant entry; any exception is caught by `except Exception` and converted
into an assistant entry of `errorMarker ++ str(e)`; the `finally` block
clears both flags on every exit path, so the returned state always has
`loading = processing = false` whenever the guard was taken. -/
def processingPass (s : SessionState) (outcome : RunOutcome) : SessionState × Nat :=
  if s.loading && !s.processing then
    match s.conversation.getLast? with
    | none =>
        ({ s with
             conversation := s.conversation ++ [⟨Role.assistant, errorMarker ++ indexErrorText⟩],
             loading := false, processing := false }, 0)
    | some _ =>
        match outcome with
        | .ok r =>
            ({ s with
                 conversation := s.conversation ++ [⟨Role.assistant, normalizeResponse r⟩],
                 loading := false, processing := false }, 1)
        | .err e =>
            ({ s with
                 conversation := s.conversation ++ [⟨Role.assistant, errorMarker ++ e⟩],
                 loading := false, processing := false }, 1)
  else (s, 0)

/-- The role of the last conversation entry, when one exists (the value the
read `conversation[-1]` would observe). -/
def lastRole (s : SessionState) : Option Role :=
  s.conversation.getLast?.map Entry.role

/-- A user-triggered event under the re-execution model: a chat submission, a
click of the Clear Conversation button, or a script run reaching the
processing block with the given agent outcome.  Each event is one script
run acting on the durable session state. -/
inductive Event
  | submit (input : String)
  | clear
  | pass (outcome : RunOutcome)
deriving DecidableEq, Repr

/-- Whether an event is a click of the Clear Conversation button. -/
def Event.isClear : Event → Bool
  | .clear => true
  | _ => false

/-- Apply one event to the session state. -/
def applyEvent (s : SessionState) : Event → SessionState
  | .submit input => chatInputHandler s input
  | .clear => clearConversation s
  | .pass o => (processingPass s o).1

/-- Run a sequence of events from a state. -/
def runEvents (s : SessionState) : List Event → SessionState
  | [] => s
  | e :: es => runEvents (applyEvent s e) es

/-- Claim C1: a re-execution pass that begins while `processing` is already
set takes the `else` branch of the guard `loading and not processing`: it
performs zero agent invocations and leaves the session state unchanged. -/
theorem C1_reentrant_pass_no_invocation (s : SessionState) (o : RunOutcome)
    (h : s.processing = true) : processingPass s o = (s, 0) := by
  simp [processingPass, h]

/-- Witness for C1: a concrete mid-processing state and an arbitrary oracle
outcome. -/
theorem C1_reentrant_pass_no_invocation_witness :
    (SessionState.mk "key" 10 [⟨Role.user, "inflation in 2024"⟩] true true).processing
        = true ∧
    processingPass (SessionState.mk "key" 10 [⟨Role.user, "inflation in 2024"⟩] true true)
        (RunOutcome.ok (Response.dict (some "Article text...")))
      = (SessionState.mk "key" 10 [⟨Role.user, "inflation in 2024"⟩] true true, 0) :=
  ⟨rfl, C1_reentrant_pass_no_invocation _ _ rfl⟩

/-- Claim C2: a processing pass (a pass on which the guard `loading and not
processing` held) ends with both flags cleared — the state is Idle — for
every oracle outcome, i.e. both when the agent invocation returns a value and
when it raises (and also on the `IndexError` path that never reaches the
agent): the `finally` block runs on every exit path. -/
theorem C2_pass_ends_idle (s : SessionState) (o : RunOutcome)
    (hl : s.loading = true) (hp : s.processing = false) :
    (processingPass s o).1.loading = false ∧
    (processingPass s o).1.processing = false := by
  cases hgl : s.conversation.getLast? <;> cases o <;>
    simp [processingPass, hl, hp, hgl]

/-- Witness for C2: a queued state with one user entry and a raising agent. -/
theorem C2_pass_ends_idle_witness :
    (SessionState.mk "key" 10 [⟨Role.user, "inflation in 2024"⟩] true false).loading
        = true ∧
    (SessionState.mk "key" 10 [⟨Role.user, "inflation in 2024"⟩] true false).processing
        = false ∧
    ((processingPass (SessionState.mk "key" 10 [⟨Role.user, "inflation in 2024"⟩] true false)
        (RunOutcome.err "timeout")).1.loading = false ∧
     (processingPass (SessionState.mk "key" 10 [⟨Role.user, "inflation in 2024"⟩] true false)
        (RunOutcome.err "timeout")).1.processing = false) :=
  ⟨rfl, rfl, C2_pass_ends_idle _ _ rfl rfl⟩

/-- Claim C3: for distinct configurations `k1 ≠ k2`, calling the cached
factory with `k1`, `k2`, `k1` runs the factory body exactly twice; the third
call is a hit that returns the handle stored for `k1` by the first call and
leaves the memo table unchanged. -/
theorem C3_cache_two_builds (k1 k2 : String × Nat) (h : k1 ≠ k2) :
    buildsOf (threeCalls k1 k2).1 + buildsOf (threeCalls k1 k2).2.1 +
      buildsOf (threeCalls k1 k2).2.2 = 2 ∧
    (threeCalls k1 k2).1.built = true ∧
    (threeCalls k1 k2).2.1.built = true ∧
    (threeCalls k1 k2).2.2.built = false ∧
    (threeCalls k1 k2).2.2.agent = (threeCalls k1 k2).1.agent ∧
    (threeCalls k1 k2).2.2.cache = (threeCalls k1 k2).2.1.cache := by
  have h2 : k2 ≠ k1 := Ne.symm h
  simp [threeCalls, getOrCreate, lookupAgent, buildsOf, h, h2]

/-- Witness for C3 at the concrete configurations `("key", 10)` and
`("key", 20)`. -/
theorem C3_cache_two_builds_witness :
    ((("key", 10) : String × Nat) ≠ ("key", 20)) ∧
    (buildsOf (threeCalls ("key", 10) ("key", 20)).1 +
       buildsOf (threeCalls ("key", 10) ("key", 20)).2.1 +
       buildsOf (threeCalls ("key", 10) ("key", 20)).2.2 = 2 ∧
     (threeCalls ("key", 10) ("key", 20)).1.built = true ∧
     (threeCalls ("key", 10) ("key", 20)).2.1.built = true ∧
     (threeCalls ("key", 10) ("key", 20)).2.2.built = false ∧
     (threeCalls ("key", 10) ("key", 20)).2.2.agent =
       (threeCalls ("key", 10) ("key", 20)).1.agent ∧
     (threeCalls ("key", 10) ("key", 20)).2.2.cache =
       (threeCalls ("key", 10) ("key", 20)).2.1.cache) :=
  ⟨by decide, C3_cache_two_builds ("key", 10) ("key", 20) (by decide)⟩

/-- Claim C4, counterexample: the claim states that a mapping-like response
whose `content` field is absent *or empty* yields `"No content available."`;
but a dict carrying `content = ""` yields the empty string, not the
fallback text. -/
theorem C4_counterexample_empty_content :
    ¬ (normalizeResponse (Response.dict (some "")) = "No content available.") := by
  decide

/-- Claim C4, amended: `normalizeResponse` is total and follows the three-branch
contract of the source: a mapping-like response yields the value of its
`content` field whenever that field is present (even when empty), and the
literal `"No content available."` only when the field is absent; an
attribute-like response yields its `content` attribute; any other shape
yields its string representation.  Totality holds by construction: every
branch returns a string and no shape is rejected. -/
theorem C4_amended_normalize_total :
    normalizeResponse (Response.dict none) = "No content available." ∧
    (∀ c, normalizeResponse (Response.dict (some c)) = c) ∧
    (∀ c, normalizeResponse (Response.obj c) = c) ∧
    (∀ s, normalizeResponse (Response.other s) = s) :=
  ⟨rfl, fun _ => rfl, fun _ => rfl, fun _ => rfl⟩

/-- Claim C5: from the Idle state, submitting an input either appends exactly
one User entry and sets `loading` (Idle → Queued) when the input is
non-blank, or leaves the state untouched when the input is blank or
whitespace-only (`isBlank input = true` covers both the falsy empty string
and the `not user_input.strip()` rejection). -/
theorem C5_submit_transition (s : SessionState) (input : String)
    (hl : s.loading = false) (hp : s.processing = false) :
    chatInputHandler s input =
      (if isBlank input then s
       else { s with conversation := s.conversation ++ [⟨Role.user, input⟩]
                   , loading := true }) := by
  by_cases he : input = ""
  · subst he
    have ht : isBlank "" = true := by decide
    simp [chatInputHandler, hl, ht]
  · by_cases ht : isBlank input = true
    · simp [chatInputHandler, hl, he, ht]
    · simp [chatInputHandler, hl, he, ht]

/-- Witness for C5 at the initial state and the non-blank concrete input
`"inflation in 2024"`. -/
theorem C5_submit_transition_witness :
    session_defaults.loading = false ∧
    session_defaults.processing = false ∧
    chatInputHandler session_defaults "inflation in 2024" =
      (if isBlank "inflation in 2024" then session_defaults
       else { session_defaults with
                conversation := session_defaults.conversation ++
                  [⟨Role.user, "inflation in 2024"⟩]
              , loading := true }) :=
  ⟨rfl, rfl, C5_submit_transition session_defaults "inflation in 2024" rfl rfl⟩

/-- Claim C6, counterexample: on a state in which `loading` is set (one user
entry queued), the Clear Conversation handler empties the conversation but
does not return the lifecycle state to Idle — `loading` stays `true` — so
the claim that `clear()` also resets the loading and processing flags is
false at this input. -/
theorem C6_counterexample_clear_keeps_flags :
    ¬ ((clearConversation
          (SessionState.mk "key" 10 [⟨Role.user, "inflation in 2024"⟩] true false)).conversation
          = [] ∧
       (clearConversation
          (SessionState.mk "key" 10 [⟨Role.user, "inflation in 2024"⟩] true false)).loading
          = false ∧
       (clearConversation
          (SessionState.mk "key" 10 [⟨Role.user, "inflation in 2024"⟩] true false)).processing
          = false) := by
  decide

/-- Claim C6, amended: `clearConversation` resets the conversation sequence
to empty and changes nothing else — `apikey`, `link_count`, `loading` and
`processing` are all left as they were; in particular the lifecycle flags are
not reset to Idle by the clear action itself. -/
theorem C6_amended_clear_resets_only_conversation (s : SessionState) :
    (clearConversation s).conversation = [] ∧
    (clearConversation s).apikey = s.apikey ∧
    (clearConversation s).link_count = s.link_count ∧
    (clearConversation s).loading = s.loading ∧
    (clearConversation s).processing = s.processing :=
  ⟨rfl, rfl, rfl, rfl, rfl⟩

/-- Claim C7: when the agent invocation raises with description `e`, the
processing pass appends exactly one Assistant entry whose text is the
user-facing error marker followed by `e` (so it contains both the marker and
the failure description), and the pass returns normally in the Idle state —
the exception is consumed by the `except` handler, never re-raised (the pass
is a total function into a successor state). -/
theorem C7_error_path_appends_marked_entry (s : SessionState) (q : Entry)
    (e : String) (hl : s.loading = true) (hp : s.processing = false)
    (hq : s.conversation.getLast? = some q) :
    (processingPass s (RunOutcome.err e)).1.conversation =
      s.conversation ++ [⟨Role.assistant, errorMarker ++ e⟩] ∧
    (processingPass s (RunOutcome.err e)).1.loading = false ∧
    (processingPass s (RunOutcome.err e)).1.processing = false := by
  simp [processingPass, hl, hp, hq]

/-- Witness for C7: the concrete scenario from the spec, a raised
`ConnectionError("timeout")` whose `str` is `"timeout"`. -/
theorem C7_error_path_appends_marked_entry_witness :
    (SessionState.mk "key" 10 [⟨Role.user, "inflation in 2024"⟩] true false).loading
        = true ∧
    (SessionState.mk "key" 10 [⟨Role.user, "inflation in 2024"⟩] true false).processing
        = false ∧
    (SessionState.mk "key" 10 [⟨Role.user, "inflation in 2024"⟩] true false).conversation.getLast?
        = some ⟨Role.user, "inflation in 2024"⟩ ∧
    ((processingPass (SessionState.mk "key" 10 [⟨Role.user, "inflation in 2024"⟩] true false)
        (RunOutcome.err "timeout")).1.conversation =
      [⟨Role.user, "inflation in 2024"⟩] ++
        [⟨Role.assistant, errorMarker ++ "timeout"⟩] ∧
     (processingPass (SessionState.mk "key" 10 [⟨Role.user, "inflation in 2024"⟩] true false)
        (RunOutcome.err "timeout")).1.loading = false ∧
     (processingPass (SessionState.mk "key" 10 [⟨Role.user, "inflation in 2024"⟩] true false)
        (RunOutcome.err "timeout")).1.processing = false) :=
  ⟨rfl, rfl, rfl,
   C7_error_path_appends_marked_entry _ ⟨Role.user, "inflation in 2024"⟩ "timeout"
     rfl rfl rfl⟩

/-- Preservation: any single event other than a Clear click keeps the
invariant "whenever `loading` is set, the conversation ends with a User
entry". -/
lemma applyEvent_inv (s : SessionState) (e : Event) (he : e.isClear = false)
    (hs : s.loading = true → lastRole s = some Role.user) :
    (applyEvent s e).loading = true → lastRole (applyEvent s e) = some Role.user := by
  cases e with
  | submit input =>
      by_cases hld : s.loading = true
      · simpa [applyEvent, chatInputHandler, hld] using hs
      · by_cases hemp : input = ""
        · simp [applyEvent, chatInputHandler, hld, hemp]
        · by_cases hbl : isBlank input = true
          · simp [applyEvent, chatInputHandler, hld, hemp, hbl]
          · intro _
            simp [applyEvent, chatInputHandler, hld, hemp, hbl, lastRole,
              List.getLast?_concat]
  | clear => simp [Event.isClear] at he
  | pass o =>
      by_cases hld : s.loading = true
      · by_cases hpr : s.processing = true
        · simpa [applyEvent, processingPass, hld, hpr] using hs
        · intro hcontra
          exfalso
          cases hgl : s.conversation.getLast? <;> cases o <;>
            simp [applyEvent, processingPass, hld, hpr, hgl] at hcontra
      · simp [applyEvent, processingPass, hld]

/-- The invariant holds along every trace that contains no Clear click. -/
lemma runEvents_inv (tr : List Event) : ∀ s : SessionState,
    tr.all (fun e => !e.isClear) = true →
    (s.loading = true → lastRole s = some Role.user) →
    ((runEvents s tr).loading = true →
      lastRole (runEvents s tr) = some Role.user) := by
  induction tr with
  | nil => intro s _ hs; simpa [runEvents] using hs
  | cons e es ih =>
      intro s hall hs
      rw [List.all_cons, Bool.and_eq_true] at hall
      have hcl : e.isClear = false := by simpa using hall.1
      simpa [runEvents] using
        ih (applyEvent s e) hall.2 (applyEvent_inv s e hcl hs)

/-- Claim C8, counterexample: the guarded state reached by submitting a
query and then clicking Clear Conversation has `loading = true` and
`processing = false` — the processing pass is about to run — yet the
conversation is empty, so the `conversation[-1]` read fails (there is no
latest user message); the guards alone do not make the read safe. -/
theorem C8_counterexample_clear_breaks_guard :
    (runEvents session_defaults [Event.submit "inflation in 2024", Event.clear]).loading
        = true ∧
    (runEvents session_defaults [Event.submit "inflation in 2024", Event.clear]).processing
        = false ∧
    (runEvents session_defaults [Event.submit "inflation in 2024", Event.clear]).conversation
        = [] ∧
    (runEvents session_defaults [Event.submit "inflation in 2024", Event.clear]).conversation.getLast?
        = none := by
  decide

/-- Claim C8, amended: on every execution in which the Clear Conversation
button is never clicked, whenever the processing guards hold
(`loading = true`, `processing = false`) the conversation ends with a User
entry, so the `conversation[-1]` read succeeds and yields the queued user
message; a Clear click while `loading` is set is the one way to reach the
guard with an empty conversation (whereupon the `IndexError` is caught by
the except handler rather than crashing the app). -/
theorem C8_amended_no_clear_guard_safe (tr : List Event)
    (hnc : tr.all (fun e => !e.isClear) = true)
    (hl : (runEvents session_defaults tr).loading = true)
    (hp : (runEvents session_defaults tr).processing = false) :
    lastRole (runEvents session_defaults tr) = some Role.user :=
  runEvents_inv tr session_defaults hnc (fun h => absurd h (by decide)) hl

/-- Witness for C8 (amended) on the one-event trace that submits a query. -/
theorem C8_amended_no_clear_guard_safe_witness :
    ([Event.submit "inflation in 2024"].all (fun e => !e.isClear) = true) ∧
    (runEvents session_defaults [Event.submit "inflation in 2024"]).loading = true ∧
    (runEvents session_defaults [Event.submit "inflation in 2024"]).processing = false ∧
    lastRole (runEvents session_defaults [Event.submit "inflation in 2024"]) =
      some Role.user :=
  ⟨by decide, by decide, by decide,
   C8_amended_no_clear_guard_safe [Event.submit "inflation in 2024"]
     (by decide) (by decide) (by decide)⟩

/-- Claim C9: the spec states the instruction set is parameterized by the
configured `resultLimit` (`link_count`).  In search.py the parameter is
unused: the constructed instructions are identical for every `link_count`,
and the search instruction (the first list element, after Python literal
concatenation) hard-codes "top 20 links"; the part_000 variant does
interpolate the configured value (here evaluated at the failing input
`link_count = 10`, the app default). -/
theorem C9_instructions_ignore_link_count :
    (∀ k n m, (create_research_agent k n).instructions =
              (create_research_agent k m).instructions) ∧
    (create_research_agent "key" 10).instructions.head? =
      some ("first you will make a plan  of what to answer and generate a series of question for the given topic" ++
            "For a given topic, search for the top 20 links.") ∧
    (create_research_agent_v0 "key" 10).instructions.head? =
      some "For a given topic, search for the top 10 links." :=
  ⟨fun _ _ _ => rfl, rfl, by decide⟩

/-- Claim C10 (implicit frame property): a processing pass whose guard held
appends exactly one entry, that entry is an Assistant entry, every
pre-existing conversation entry is preserved unchanged in place
(`dropLast` of the new conversation is the old one), and the configuration
fields `apikey` and `link_count` are untouched — on the success branch, the
failure branch, and the `IndexError` branch alike. -/
theorem C10_pass_frame (s : SessionState) (o : RunOutcome)
    (hl : s.loading = true) (hp : s.processing = false) :
    (processingPass s o).1.conversation.length = s.conversation.length + 1 ∧
    (processingPass s o).1.conversation.dropLast = s.conversation ∧
    lastRole (processingPass s o).1 = some Role.assistant ∧
    (processingPass s o).1.apikey = s.apikey ∧
    (processingPass s o).1.link_count = s.link_count := by
  cases hgl : s.conversation.getLast? <;> cases o <;>
    simp [processingPass, lastRole, hl, hp, hgl, List.dropLast_concat,
      List.getLast?_concat]

/-- Witness for C10: a queued state with one user entry and a successful
agent outcome. -/
theorem C10_pass_frame_witness :
    (SessionState.mk "key" 10 [⟨Role.user, "inflation in 2024"⟩] true false).loading
        = true ∧
    (SessionState.mk "key" 10 [⟨Role.user, "inflation in 2024"⟩] true false).processing
        = false ∧
    ((processingPass (SessionState.mk "key" 10 [⟨Role.user, "inflation in 2024"⟩] true false)
        (RunOutcome.ok (Response.dict (some "Article text...")))).1.conversation.length =
      (SessionState.mk "key" 10 [⟨Role.user, "inflation in 2024"⟩] true false).conversation.length + 1 ∧
     (processingPass (SessionState.mk "key" 10 [⟨Role.user, "inflation in 2024"⟩] true false)
        (RunOutcome.ok (Response.dict (some "Article text...")))).1.conversation.dropLast =
      (SessionState.mk "key" 10 [⟨Role.user, "inflation in 2024"⟩] true false).conversation ∧
     lastRole (processingPass (SessionState.mk "key" 10 [⟨Role.user, "inflation in 2024"⟩] true false)
        (RunOutcome.ok (Response.dict (some "Article text...")))).1 = some Role.assistant ∧
     (processingPass (SessionState.mk "key" 10 [⟨Role.user, "inflation in 2024"⟩] true false)
        (RunOutcome.ok (Response.dict (some "Article text...")))).1.apikey =
      (SessionState.mk "key" 10 [⟨Role.user, "inflation in 2024"⟩] true false).apikey ∧
     (processingPass (SessionState.mk "key" 10 [⟨Role.user, "inflation in 2024"⟩] true false)
        (RunOutcome.ok (Response.dict (some "Article text...")))).1.link_count =
      (SessionState.mk "key" 10 [⟨Role.user, "inflation in 2024"⟩] true false).link_count) :=
  ⟨rfl, rfl, C10_pass_frame _ _ rfl rfl⟩
